import Mathlib

/-!
Shallow embedding of the pcar lookup-aggregation service (src/main.py and
src/services/*.py) and proofs about its claimed properties.

Conventions of the embedding:
* Python dict-shaped results become Lean structures; an absent string key is
  modelled by the empty string "" where the source only ever tests truthiness,
  and by `Option` where the source distinguishes `None`.
* `async` operations whose outcome depends on the network/browser take that
  outcome as an explicit argument (an `Outcome` value or a "world" record).
* Exceptions raised to the caller become `Except HErr` results.
* Elapsed wall-clock time (`perf_counter` deltas) is passed in as a number.
-/

namespace PCar

/-- Python `str.strip()`: drop leading and trailing whitespace (modelled
over the character list so that proofs can evaluate it). -/
def pyStrip (s : String) : String :=
  String.mk (((s.data.dropWhile Char.isWhitespace).reverse.dropWhile
    Char.isWhitespace).reverse)

/-- Python `str.lower()`. -/
def pyLower (s : String) : String :=
  String.mk (s.data.map Char.toLower)

/-- Python `str.upper()`. -/
def pyUpper (s : String) : String :=
  String.mk (s.data.map Char.toUpper)

/-- An HTTPException as raised by FastAPI code: status code plus detail. -/
structure HErr where
  status : Nat
  detail : String
deriving DecidableEq, Repr

/-- Free text parsed out of the licencia result page header
(`data["resumen"]` in the source); only the keys read by the aggregator's
extractors are modelled, with "" for an absent key. -/
structure Resumen where
  dni : String := ""
  documento : String := ""
deriving DecidableEq, Repr

/-- One owner row from SUNARP's `propietarios_detalle`. -/
structure Propietario where
  ap_paterno : String := ""
  ap_materno : String := ""
  nombres : String := ""
deriving DecidableEq, Repr

/-- Payloads returned by the individual `consulta_*` service functions
(the `data` field of a wrapped result).  Each carries the literal value of
its "ok" key plus the components the aggregator actually reads. -/
inductive SvcData where
  | sunarpD (okField : Bool) (propietarios_detalle : List Propietario)
  | licenciaD (okField : Bool) (captcha_valido : Bool) (resumen : Resumen)
  | dniPeruD (okField : Bool) (datos_dni : String)
  | dniNombreD (okField : Bool) (resultados_dni : List String)
  | genericD (okField : Option Bool)
deriving DecidableEq, Repr

/-- How one awaited service call ended, as observed by the task wrappers in
src/main.py: normal completion, `asyncio.TimeoutError`, an `HTTPException`,
or any other exception. -/
inductive Outcome where
  | completed (d : SvcData)
  | timedOut
  | httpError (status : Nat) (detail : String)
  | fault (msg : String)
deriving DecidableEq, Repr

/-- The uniform per-service result envelope built by `_wrap_servicio` and its
sibling wrappers.  `none` models an absent dict key. -/
structure Block where
  ok : Bool
  data : Option SvcData := none
  error : Option String := none
  status : Option Nat := none
  duracion_ms : Option Nat := none
  propietario_usado : Option Propietario := none
deriving DecidableEq, Repr

/-- Default timeout (ms) of `_wrap_servicio` (env default "20000"). -/
def SERVICE_TIMEOUT_MS : Nat := 20000

/-- Default timeout (ms) of the recompensas wrapper (env default "25000"). -/
def RECOMPENSAS_TIMEOUT_MS : Nat := 25000

/-- Default timeout (ms) of the licencia wrappers (env default "40000"). -/
def LICENCIA_TIMEOUT_MS : Nat := 40000

/-- The timeout error message `f"Timeout después de {MS} ms"`. -/
def timeoutMsg (ms : Nat) : String :=
  "Timeout después de " ++ toString ms ++ " ms"

/-- The inner validity flag read by every wrapper:
`data.get("ok", True) if isinstance(data, dict) else True`. -/
def inner_ok : SvcData → Bool
  | .sunarpD okF _ => okF
  | .licenciaD okF _ _ => okF
  | .dniPeruD okF _ => okF
  | .dniNombreD okF _ => okF
  | .genericD okF => okF.getD true

/-- Common body of `_wrap_servicio`, `_wrap_redam`, `_wrap_licencia_por_dni`,
`_wrap_dni_peru`, ... in src/main.py: classify the outcome of the awaited
call into the uniform envelope.  Every branch records the elapsed time. -/
def wrapOutcome (timeoutMs elapsed : Nat) : Outcome → Block
  | .completed d =>
      { ok := inner_ok d, data := some d, error := none,
        duracion_ms := some elapsed }
  | .timedOut =>
      { ok := false, error := some (timeoutMsg timeoutMs), status := some 504,
        duracion_ms := some elapsed }
  | .httpError s det =>
      { ok := false, error := some det, status := some s,
        duracion_ms := some elapsed }
  | .fault m =>
      { ok := false, error := some m, status := some 500,
        duracion_ms := some elapsed }

/-- `_wrap_servicio` from src/main.py (name and service function elided:
they only select which coroutine is awaited). -/
def _wrap_servicio (elapsed : Nat) (o : Outcome) : Block :=
  wrapOutcome SERVICE_TIMEOUT_MS elapsed o

/-- `_wrap_licencia_por_dni` from src/main.py. -/
def _wrap_licencia_por_dni (elapsed : Nat) (o : Outcome) : Block :=
  wrapOutcome LICENCIA_TIMEOUT_MS elapsed o

/-- Result of one captcha attempt inside `consulta_licencia_por_dni` /
`consulta_licencia_por_nombre` (the dict built by `_intentar_consulta`). -/
structure ResultadoIntento where
  captcha_text : String := ""
  captcha_valido : Bool := false
  no_result : Bool := false
  resumen : Resumen := {}
deriving DecidableEq, Repr

/-- The final dict returned by `consulta_licencia_por_dni` in
src/services/licencia.py (lines 1218-1229): note the literal `"ok": True`,
independent of `resultado["captcha_valido"]`. -/
def licencia_dni_result (r : ResultadoIntento) : SvcData :=
  .licenciaD true r.captcha_valido r.resumen

/-- The final dict returned by `consulta_licencia_por_nombre` in
src/services/licencia.py (lines 1022-1035): also a literal `"ok": True`. -/
def licencia_nombre_result (r : ResultadoIntento) : SvcData :=
  .licenciaD true r.captcha_valido r.resumen

/-- The payload's challenge-acceptance flag, where the payload has one. -/
def SvcData.captchaValido : SvcData → Option Bool
  | .licenciaD _ cv _ => some cv
  | _ => none

/-- `_clean_6_digits` from src/services/licencia.py: drop every non-digit
character, keep the first six digits. -/
def _clean_6_digits (text : String) : String :=
  String.mk ((text.data.filter Char.isDigit).take 6)

/-- The captcha answer gate at the top of `enviar_captcha_sesion_licencia`
(src/services/licencia.py lines 801-803): clean the text and reject with
HTTP 400 unless exactly six digits remain. -/
def captchaAnswerGate (captcha_text : String) : Except HErr String :=
  let digits := _clean_6_digits captcha_text
  if digits.length ≠ 6 then
    .error ⟨400, "Licencia: captcha_text debe tener 6 dígitos"⟩
  else
    .ok digits

/-- Python truthiness of an optional string: falsy iff `None` or `""`. -/
def pyTruthy : Option String → Bool
  | none => false
  | some s => s ≠ ""

/-- Python `a or b` on optional strings (returns `b`, even falsy, when `a`
is falsy). -/
def pyOr (a b : Option String) : Option String :=
  if pyTruthy a then a else b

/-- `_dni_desde_licencia` from src/main.py: read
`data["resumen"]["dni"] or data["resumen"]["documento"]`, stripped, from an
ok aggregator block. -/
def _dni_desde_licencia : Option Block → Option String
  | none => none
  | some b =>
    if ¬ b.ok then none
    else
      match b.data with
      | some (.licenciaD _ _ res) =>
        let dni := pyStrip (if res.dni ≠ "" then res.dni else res.documento)
        if dni = "" then none else some dni
      | _ => none

/-- `_dni_desde_dni_peru` from src/main.py: read `data["datos"]["dni"]`,
stripped, from an ok aggregator block. -/
def _dni_desde_dni_peru : Option Block → Option String
  | none => none
  | some b =>
    if ¬ b.ok then none
    else
      match b.data with
      | some (.dniPeruD _ datosDni) =>
        let dni := pyStrip datosDni
        if dni = "" then none else some dni
      | _ => none

/-- `_dni_desde_dni_nombre` from src/main.py: the first row of
`data["resultados"]` with a non-empty stripped `dni`. -/
def _dni_desde_dni_nombre : Option Block → Option String
  | none => none
  | some b =>
    if ¬ b.ok then none
    else
      match b.data with
      | some (.dniNombreD _ filas) =>
        (filas.map pyStrip).find? (fun dni => dni ≠ "")
      | _ => none

/-- `_extraer_propietario_sunarp` from src/main.py: the first owner whose
three stripped name parts are all non-empty. -/
def _extraer_propietario_sunarp : Option Block → Option Propietario
  | none => none
  | some b =>
    if ¬ b.ok then none
    else
      match b.data with
      | some (.sunarpD _ props) =>
        (props.map fun p =>
            (⟨pyStrip p.ap_paterno, pyStrip p.ap_materno, pyStrip p.nombres⟩ : Propietario)).find?
          (fun p => p.ap_paterno ≠ "" ∧ p.ap_materno ≠ "" ∧ p.nombres ≠ "")
      | _ => none

/-- The synthesized per-service result `_wrap_redam` returns when no dni is
available: ok=false, HTTP 400, explanatory error, duration still recorded. -/
def redamMissingDniBlock (elapsed : Nat) : Block :=
  { ok := false, error := some "dni requerido para el servicio redam",
    status := some 400, duracion_ms := some elapsed }

/-- `_wrap_redam` from src/main.py: synthesize an HTTP-400-shaped block when
no dni is available, otherwise run the lookup.  The second component lists
the underlying lookups actually invoked. -/
def _wrap_redam (dni : Option String) (elapsed : Nat) (o : Outcome) :
    Block × List String :=
  if ¬ pyTruthy dni then (redamMissingDniBlock elapsed, [])
  else (wrapOutcome SERVICE_TIMEOUT_MS elapsed o, ["redam"])

/-- The dni resolution chain for redam (src/main.py lines 654-659):
`req.dni or _dni_desde_licencia(...) or _dni_desde_dni_peru(...) or
_dni_desde_dni_nombre(...)`. -/
def dni_redam_chain (reqDni : Option String)
    (lic dperu dnom : Option Block) : Option String :=
  pyOr reqDni
    (pyOr (_dni_desde_licencia lic)
      (pyOr (_dni_desde_dni_peru dperu) (_dni_desde_dni_nombre dnom)))

/-- `_wrap_dni_peru` from src/main.py. -/
def _wrap_dni_peru (dni : Option String) (elapsed : Nat) (o : Outcome) :
    Block × List String :=
  if ¬ pyTruthy dni then
    ({ ok := false, error := some "dni requerido para el servicio dni_peru",
       status := some 400, duracion_ms := some elapsed }, [])
  else
    (wrapOutcome SERVICE_TIMEOUT_MS elapsed o, ["dni_peru"])

/-- `_wrap_licencia_desde_sunarp` from src/main.py. -/
def _wrap_licencia_desde_sunarp (sunarpRes : Option Block) (elapsed : Nat)
    (o : Outcome) : Block × List String :=
  match _extraer_propietario_sunarp sunarpRes with
  | none =>
    ({ ok := false,
       error := some "No hay propietario válido en SUNARP para buscar licencia",
       status := some 400, duracion_ms := some elapsed }, [])
  | some prop =>
    ({ wrapOutcome LICENCIA_TIMEOUT_MS elapsed o with
       propietario_usado := some prop }, ["licencia_nombre"])

/-- `_wrap_dni_nombre_desde_sunarp` from src/main.py. -/
def _wrap_dni_nombre_desde_sunarp (sunarpRes : Option Block) (elapsed : Nat)
    (o : Outcome) : Block × List String :=
  match _extraer_propietario_sunarp sunarpRes with
  | none =>
    ({ ok := false,
       error := some "No hay propietario válido en SUNARP para buscar DNI",
       status := some 400, duracion_ms := some elapsed }, [])
  | some prop =>
    ({ wrapOutcome SERVICE_TIMEOUT_MS elapsed o with
       propietario_usado := some prop }, ["dni_nombre"])

/-- `_wrap_recompensas` from src/main.py: reuse SUNARP owners when that
block is ok, otherwise run the plate-based variant. -/
def _wrap_recompensas (sunarpRes : Option Block) (elapsed : Nat)
    (o : Outcome) : Block × List String :=
  let viaProps := match sunarpRes with
    | some b => b.ok
    | none => false
  (wrapOutcome RECOMPENSAS_TIMEOUT_MS elapsed o,
   [if viaProps then "recompensas_desde_propietarios" else "recompensas_desde_sunarp"])

/-- `DEFAULT_SERVICIOS_VEHICULO` from src/main.py. -/
def DEFAULT_SERVICIOS_VEHICULO : List String :=
  ["sunarp", "soat", "revision", "sutran", "sat", "sat_callao",
   "dni_nombre", "licencia", "redam", "recompensas"]

/-- `SERVICIOS_TODOS` from src/main.py (as a list; membership is what the
source uses it for). -/
def SERVICIOS_TODOS : List String :=
  DEFAULT_SERVICIOS_VEHICULO ++ ["dni_peru"]

/-- `SERVICIO_ALIASES` from src/main.py. -/
def SERVICIO_ALIASES : List (String × String) :=
  [("dni", "dni_peru"), ("dniperu", "dni_peru"), ("dni_nombre", "dni_nombre"),
   ("dni_nombres", "dni_nombre"), ("dni_propietario", "dni_nombre"),
   ("dni_por_nombre", "dni_nombre"), ("lic", "licencia"),
   ("mtc_licencia", "licencia")]

/-- One entry's normalization: strip, lowercase, one alias-table
application (`SERVICIO_ALIASES.get(slug, slug)`). -/
def slugOf (item : String) : String :=
  let slug := pyLower (pyStrip item)
  (SERVICIO_ALIASES.lookup slug).getD slug

/-- The loop body of `_normalizar_servicios`, threading the accumulated
normalized and invalid lists. -/
def normStep (acc : List String × List String) (item : String) :
    List String × List String :=
  let (normalizados, invalidos) := acc
  let slug := slugOf item
  if slug = "" then acc
  else if slug ∉ SERVICIOS_TODOS then (normalizados, invalidos ++ [item])
  else if slug ∈ normalizados then acc
  else (normalizados ++ [slug], invalidos)

/-- `_normalizar_servicios` from src/main.py: `none` and `[]` both fall back
to the default list; invalid entries reject the request with HTTP 400. -/
def _normalizar_servicios (lista : Option (List String)) :
    Except HErr (List String) :=
  match lista with
  | none => .ok DEFAULT_SERVICIOS_VEHICULO
  | some l =>
    if l = [] then .ok DEFAULT_SERVICIOS_VEHICULO
    else
      let p := l.foldl normStep ([], [])
      if p.2 ≠ [] then
        .error ⟨400, "Servicios no soportados: " ++
                      String.intercalate ", " p.2⟩
      else .ok p.1

/-- The aggregator's per-service result map (`resultados` in
`consulta_vehicular_full`), one optional block per canonical service. -/
structure Resultados where
  sunarp : Option Block := none
  soat : Option Block := none
  revision : Option Block := none
  sutran : Option Block := none
  sat : Option Block := none
  sat_callao : Option Block := none
  dni_peru : Option Block := none
  dni_nombre : Option Block := none
  licencia : Option Block := none
  redam : Option Block := none
  recompensas : Option Block := none
deriving DecidableEq, Repr

/-- Store a block under a canonical service name. -/
def Resultados.set (r : Resultados) (nombre : String) (b : Block) : Resultados :=
  if nombre = "sunarp" then { r with sunarp := some b }
  else if nombre = "soat" then { r with soat := some b }
  else if nombre = "revision" then { r with revision := some b }
  else if nombre = "sutran" then { r with sutran := some b }
  else if nombre = "sat" then { r with sat := some b }
  else if nombre = "sat_callao" then { r with sat_callao := some b }
  else if nombre = "dni_peru" then { r with dni_peru := some b }
  else if nombre = "dni_nombre" then { r with dni_nombre := some b }
  else if nombre = "licencia" then { r with licencia := some b }
  else if nombre = "redam" then { r with redam := some b }
  else if nombre = "recompensas" then { r with recompensas := some b }
  else r

/-- The request body of `POST /consulta-vehicular-full`. -/
structure FullRequest where
  placa : String
  servicios : Option (List String) := none
  dni : Option String := none

/-- Environment-supplied outcomes of the underlying service coroutines and
the wall-clock durations the wrappers would measure. -/
structure World where
  svc : String → Outcome
  dni_peru : Outcome
  dni_nombre : Outcome
  recompensas : Outcome
  licencia_dni : Outcome
  licencia_nombre : Outcome
  redam : Outcome
  elapsed : String → Nat

/-- The aggregate response of `consulta_vehicular_full`. -/
structure FullResponse where
  ok : Bool
  placa : String
  dni : Option String
  servicios : Resultados
  orden_solicitado : List String
deriving DecidableEq, Repr

/-- Independent-stage loop body of `consulta_vehicular_full`: plate-based
services and dni_peru start here; recompensas, licencia, redam and
dni_nombre are skipped (they depend on other data). -/
def indepStep (req : FullRequest) (w : World)
    (acc : Resultados × List String) (nombre : String) :
    Resultados × List String :=
  let (res, log) := acc
  if nombre = "sunarp" then
    (res.set "sunarp" (_wrap_servicio (w.elapsed "sunarp") (w.svc "sunarp")),
     log ++ ["sunarp"])
  else if nombre = "dni_peru" then
    let (b, inv) := _wrap_dni_peru req.dni (w.elapsed "dni_peru") w.dni_peru
    (res.set "dni_peru" b, log ++ inv)
  else if nombre = "recompensas" ∨ nombre = "licencia" ∨ nombre = "redam" ∨
          nombre = "dni_nombre" then acc
  else if nombre = "soat" ∨ nombre = "revision" ∨ nombre = "sutran" ∨
          nombre = "sat" ∨ nombre = "sat_callao" then
    (res.set nombre (_wrap_servicio (w.elapsed nombre) (w.svc nombre)),
     log ++ [nombre])
  else acc

/-- The dependent-stage and response assembly of `consulta_vehicular_full`
(src/main.py lines 584-668), modelled as a pure function of the request and
the world.  The second component is the list of underlying lookups that
were actually dispatched, in dispatch order. -/
def consulta_vehicular_full (req : FullRequest) (w : World) :
    Except HErr FullResponse × List String :=
  let placa := pyUpper (pyStrip req.placa)
  match _normalizar_servicios req.servicios with
  | .error e => (.error e, [])
  | .ok servicios =>
    let p0 := servicios.foldl (indepStep req w) ({}, [])
    let p1 :=
      if "dni_nombre" ∈ servicios then
        let bi := _wrap_dni_nombre_desde_sunarp p0.1.sunarp
          (w.elapsed "dni_nombre") w.dni_nombre
        (p0.1.set "dni_nombre" bi.1, p0.2 ++ bi.2)
      else p0
    let p2 :=
      if "recompensas" ∈ servicios then
        let bi := _wrap_recompensas p1.1.sunarp
          (w.elapsed "recompensas") w.recompensas
        (p1.1.set "recompensas" bi.1, p1.2 ++ bi.2)
      else p1
    let p3 :=
      if "licencia" ∈ servicios then
        let dni_para_licencia :=
          pyOr req.dni
            (pyOr (_dni_desde_dni_peru p2.1.dni_peru)
                  (_dni_desde_dni_nombre p2.1.dni_nombre))
        if pyTruthy dni_para_licencia then
          (p2.1.set "licencia"
             (_wrap_licencia_por_dni (w.elapsed "licencia") w.licencia_dni),
           p2.2 ++ ["licencia_dni"])
        else
          let bi := _wrap_licencia_desde_sunarp p2.1.sunarp
            (w.elapsed "licencia") w.licencia_nombre
          (p2.1.set "licencia" bi.1, p2.2 ++ bi.2)
      else p2
    let p4 :=
      if "redam" ∈ servicios then
        let dni_redam :=
          dni_redam_chain req.dni p3.1.licencia p3.1.dni_peru p3.1.dni_nombre
        let bi := _wrap_redam dni_redam (w.elapsed "redam") w.redam
        (p3.1.set "redam" bi.1, p3.2 ++ bi.2)
      else p3
    (.ok { ok := true, placa := placa, dni := req.dni, servicios := p4.1,
           orden_solicitado := servicios }, p4.2)

/-- One stored challenge session (`_LicenciaSession`): creation time on the
monotonic clock, search kind and parameters, current captcha image, and the
identifier of the automation context it owns. -/
structure SessData where
  created_at : Nat
  kind : String
  param_dni : String := ""
  captcha_b64 : String
  ctx : Nat
deriving DecidableEq, Repr

/-- The module-level `_licencia_sessions` dict plus an audit log of every
`context.close()` call issued by the registry (one entry per call, so a
double release would show up as a duplicate). -/
structure Registry where
  sessions : List (String × SessData)
  closedCtxs : List Nat
deriving DecidableEq, Repr

/-- `_close_licencia_session`: pop the session if present and close its
context; a missing id is a no-op. -/
def _close_licencia_session (sid : String) (reg : Registry) : Registry :=
  match reg.sessions.lookup sid with
  | none => reg
  | some s =>
    { sessions := reg.sessions.filter (fun kv => kv.1 != sid),
      closedCtxs := reg.closedCtxs ++ [s.ctx] }

/-- Stable insertion (by `created_at`) used to model Python's stable
`sorted(..., key=lambda kv: kv[1].created_at)`. -/
def insertByCreated (kv : String × SessData) :
    List (String × SessData) → List (String × SessData)
  | [] => [kv]
  | x :: xs =>
    if kv.2.created_at ≤ x.2.created_at then kv :: x :: xs
    else x :: insertByCreated kv xs

/-- Stable sort by `created_at`. -/
def sortByCreated : List (String × SessData) → List (String × SessData)
  | [] => []
  | x :: xs => insertByCreated x (sortByCreated xs)

/-- `_cleanup_licencia_sessions`: drop sessions older than the TTL, then, if
still over capacity, close the oldest-by-creation-time sessions until the
count is back at the capacity. -/
def _cleanup_licencia_sessions (now ttl maxN : Nat) (reg : Registry) :
    Registry :=
  if reg.sessions = [] then reg
  else
    let expired :=
      (reg.sessions.filter (fun kv => decide (now - kv.2.created_at > ttl))).map
        Prod.fst
    let reg1 := expired.foldl (fun r sid => _close_licencia_session sid r) reg
    if reg1.sessions.length > maxN then
      let ordered := sortByCreated reg1.sessions
      let excess := reg1.sessions.length - maxN
      (ordered.take excess).foldl (fun r kv => _close_licencia_session kv.1 r)
        reg1
    else reg1

/-- `iniciar_sesion_licencia_dni`: sweep the registry, open a fresh
automation context `ctx`, and either store the new session (success) or
close the context and re-raise (the `except Exception` path). -/
def iniciar_sesion_licencia_dni (now ttl maxN : Nat) (dni : String)
    (sid : String) (ctx : Nat) (captcha_b64 : String) (initFails : Bool)
    (reg : Registry) : Registry × Except HErr String :=
  let reg1 := _cleanup_licencia_sessions now ttl maxN reg
  if initFails then
    ({ reg1 with closedCtxs := reg1.closedCtxs ++ [ctx] },
     .error ⟨500, "Licencia: fallo inicializando la sesión"⟩)
  else
    ({ reg1 with
       sessions := reg1.sessions ++
         [(sid, { created_at := now, kind := "dni", param_dni := pyStrip dni,
                  captcha_b64 := captcha_b64, ctx := ctx })] },
     .ok sid)

/-- The outcome of `_submit_captcha_y_parse` on the session's live page. -/
structure ParseResult where
  captcha_valido : Bool
  no_result : Bool := false
  mensaje_modal : String := ""
deriving DecidableEq, Repr

/-- The JSON body returned by `enviar_captcha_sesion_licencia` (only the
fields the claims are about). -/
structure SubmitResponse where
  ok : Bool
  captcha_valido : Bool
  need_captcha : Bool := false
  mensaje_modal : Option String := none
  captcha_png_base64 : Option String := none
  captcha_ingresado : Option String := none
  sin_resultados : Option Bool := none
  dni : Option String := none
deriving DecidableEq, Repr

/-- In-place mutation of the stored session object: refresh `created_at`
and replace the captcha image. -/
def refreshSession (sid : String) (now : Nat) (newB64 : String)
    (l : List (String × SessData)) : List (String × SessData) :=
  l.map fun kv =>
    if kv.1 = sid then
      (kv.1, { kv.2 with created_at := now, captcha_b64 := newB64 })
    else kv

/-- `enviar_captcha_sesion_licencia` (src/services/licencia.py lines
789-850): sweep, look the session up (404 if absent), validate the answer
format (400), refresh `created_at`, submit through the live page, then
either keep the session alive with a fresh captcha image (rejection) or
close it and return the parsed result (acceptance).  `freshCaptcha` is the
image captured after a rejection (`none` models the capture failing, in
which case the old image is kept). -/
def enviar_captcha_sesion_licencia (now ttl maxN : Nat)
    (session_id captcha_text : String) (parse : ParseResult)
    (freshCaptcha : Option String) (reg : Registry) :
    Registry × Except HErr SubmitResponse :=
  let reg1 := _cleanup_licencia_sessions now ttl maxN reg
  match reg1.sessions.lookup session_id with
  | none => (reg1, .error ⟨404, "Licencia: sesión expirada o no existe"⟩)
  | some sess =>
    match captchaAnswerGate captcha_text with
    | .error e => (reg1, .error e)
    | .ok digits =>
      if ¬ parse.captcha_valido then
        let newB64 := freshCaptcha.getD sess.captcha_b64
        ({ reg1 with
           sessions := refreshSession session_id now newB64 reg1.sessions },
         .ok { ok := false, captcha_valido := false, need_captcha := true,
               mensaje_modal := some (if parse.mensaje_modal ≠ "" then
                 parse.mensaje_modal else "Captcha inválido"),
               captcha_png_base64 := some newB64 })
      else
        (_close_licencia_session session_id
           { reg1 with
             sessions := refreshSession session_id now sess.captcha_b64
               reg1.sessions },
         .ok { ok := true, captcha_valido := true,
               captcha_ingresado := some digits,
               sin_resultados := some parse.no_result,
               dni := if sess.kind = "dni" then some sess.param_dni
                      else none })

/-- Exit modes of one `consulta_licencia_por_nombre` call. -/
inductive LicExit where
  | normal (d : SvcData)
  | raised (e : HErr)
  | cancelled
deriving DecidableEq, Repr

/-- What happened to the automation context a licencia lookup opened. -/
structure LicRun where
  contextOpened : Bool
  contextClosed : Bool
  exit : LicExit
deriving DecidableEq, Repr

/-- Environment of one `consulta_licencia_por_nombre` call: which of its
page interactions fail, and whether `asyncio.wait_for` in the task wrapper
cancels it mid-flight. -/
structure LicNombreWorld where
  gotoRaises : Bool := false
  inputsPresent : Bool := true
  captchaImgPresent : Bool := true
  cancelledByTimeout : Bool := false
  resultado : ResultadoIntento := {}

/-- Resource behaviour of `consulta_licencia_por_nombre`
(src/services/licencia.py lines 860-1035).  The body has no try/finally
around the context: only the missing-input check closes explicitly, and
`await context.close()` on line 1020 runs only when control reaches the end
normally.  An HTTPException from `_get_captcha_base64` (no captcha image,
lines 158-205) propagates without closing, as does the CancelledError
injected when the task wrapper's timeout fires. -/
def consulta_licencia_por_nombre_run (w : LicNombreWorld) : LicRun :=
  if w.gotoRaises then
    { contextOpened := true, contextClosed := false,
      exit := .raised ⟨502, "goto failed"⟩ }
  else if ¬ w.inputsPresent then
    { contextOpened := true, contextClosed := true,
      exit := .raised ⟨500, "Licencia: falta input de apellido paterno"⟩ }
  else if ¬ w.captchaImgPresent then
    { contextOpened := true, contextClosed := false,
      exit := .raised ⟨500, "Licencia: no se encontró imagen de captcha"⟩ }
  else if w.cancelledByTimeout then
    { contextOpened := true, contextClosed := false, exit := .cancelled }
  else
    { contextOpened := true, contextClosed := true,
      exit := .normal (licencia_nombre_result w.resultado) }

/-- Environment of one `solve_turnstile_with_capmonster` call:
whether a CapMonster API key is configured, the site key recovered from the
hook / DOM / asset scan within the bounded wait (if any), and the
token-solving backend's reply (error, or the extracted token fields, ""
when none of `token` / `cf_clearance` / `captchaKey` is present). -/
structure TurnstileWorld where
  hasApiKey : Bool := true
  sitekey : Option String := none
  backend : Except String String := .ok ""

/-- `solve_turnstile_with_capmonster` from src/services/sunarp.py lines
717-796: every failure mode raises an HTTPException (explicit error). -/
def solve_turnstile_with_capmonster (w : TurnstileWorld) :
    Except HErr String :=
  if ¬ w.hasApiKey then
    .error ⟨500, "Falta CAPMONSTER_API_KEY para resolver Cloudflare Turnstile (carga el .env y reinicia la API)"⟩
  else
    match w.sitekey with
    | none => .error ⟨500, "No se pudo obtener el sitekey de Turnstile"⟩
    | some _ =>
      match w.backend with
      | .error e =>
        .error ⟨500, "Error resolviendo Turnstile con CapMonster: " ++ e⟩
      | .ok token =>
        if token = "" then
          .error ⟨500, "CapMonster no devolvió token de Turnstile"⟩
        else .ok token

/-- How the turnstile step of one `consulta_sunarp` submit attempt ends. -/
inductive TurnstileAttempt where
  | solved (token : String)
  | abortedHttp (e : HErr)
  | checkboxFallback
deriving DecidableEq, Repr

/-- The caller side in `consulta_sunarp` (src/services/sunarp.py lines
1109-1121): `except HTTPException` closes the context and re-raises,
aborting the lookup; only a generic `except Exception` (modelled by
`genericFailure`) takes the clickable-checkbox path. -/
def sunarp_turnstile_attempt (w : TurnstileWorld) (genericFailure : Bool) :
    TurnstileAttempt :=
  if genericFailure then .checkboxFallback
  else
    match solve_turnstile_with_capmonster w with
    | .ok tok => .solved tok
    | .error e => .abortedHttp e

/-- Loop state of `_otsu_threshold`: running class-0 weight and sum, best
variance so far (init -1.0) and its threshold (init 160), and whether the
`break` was taken. -/
structure OtsuState where
  wb : ℕ
  sumb : ℕ
  maxVar : ℚ
  thr : ℕ
  done : Bool
deriving DecidableEq, Repr

/-- One iteration of the `for t in range(256)` loop of `_otsu_threshold`
(src/services/licencia.py lines 412-425), with the `break` modelled by the
`done` flag. -/
def otsuStep (hist : ℕ → ℕ) (total sumTotal : ℕ) (s : OtsuState) (t : ℕ) :
    OtsuState :=
  if s.done then s
  else
    let wb := s.wb + hist t
    if wb = 0 then { s with wb := wb }
    else
      let wf := total - wb
      if wf = 0 then { s with wb := wb, done := true }
      else
        let sumb := s.sumb + t * hist t
        let mb : ℚ := (sumb : ℚ) / (wb : ℚ)
        let mf : ℚ := ((sumTotal : ℚ) - (sumb : ℚ)) / (wf : ℚ)
        let varB : ℚ := (wb : ℚ) * (wf : ℚ) * (mb - mf) ^ 2
        if s.maxVar < varB then
          { wb := wb, sumb := sumb, maxVar := varB, thr := t, done := false }
        else { s with wb := wb, sumb := sumb }

/-- Initial state of the Otsu loop. -/
def otsuInit : OtsuState :=
  { wb := 0, sumb := 0, maxVar := -1, thr := 160, done := false }

/-- `_otsu_threshold` from src/services/licencia.py lines 395-428: scan the
256-bin histogram, keep the threshold of largest between-class variance,
and clamp the result to [90, 210] (an empty histogram returns 160 early). -/
def _otsu_threshold (hist : ℕ → ℕ) : ℕ :=
  let total := ∑ i ∈ Finset.range 256, hist i
  if total = 0 then 160
  else
    let sumTotal := ∑ i ∈ Finset.range 256, i * hist i
    let final := (List.range 256).foldl (otsuStep hist total sumTotal) otsuInit
    max 90 (min 210 final.thr)

/-- Pixel count at gray levels ≤ t (class-0 weight of threshold t). -/
def wBelow (hist : ℕ → ℕ) (t : ℕ) : ℕ :=
  ∑ i ∈ Finset.range (t + 1), hist i

/-- Intensity sum at gray levels ≤ t. -/
def sBelow (hist : ℕ → ℕ) (t : ℕ) : ℕ :=
  ∑ i ∈ Finset.range (t + 1), i * hist i

/-- Modelled from the spec: the between-class variance
(weight below t)·(weight above t)·(mean below t − mean above t)² of
threshold t, taken as 0 when either class is empty. -/
def varBetween (hist : ℕ → ℕ) (t : ℕ) : ℚ :=
  let total := ∑ i ∈ Finset.range 256, hist i
  let sumTotal := ∑ i ∈ Finset.range 256, i * hist i
  let wb := wBelow hist t
  let wf := total - wb
  if wb = 0 ∨ wf = 0 then 0
  else
    (wb : ℚ) * (wf : ℚ) *
      ((sBelow hist t : ℚ) / (wb : ℚ) -
        ((sumTotal : ℚ) - (sBelow hist t : ℚ)) / (wf : ℚ)) ^ 2

/-- Pixel count strictly below bin k (prefix sum of the histogram). -/
def wPrefix (hist : ℕ → ℕ) (k : ℕ) : ℕ :=
  ∑ i ∈ Finset.range k, hist i

/-- Intensity sum strictly below bin k. -/
def sPrefix (hist : ℕ → ℕ) (k : ℕ) : ℕ :=
  ∑ i ∈ Finset.range k, i * hist i

/-- A threshold t at which both classes (≤ t and > t) are non-empty —
exactly the iterations where the Otsu loop computes a variance. -/
def considered (hist : ℕ → ℕ) (total : ℕ) (t : ℕ) : Prop :=
  0 < wPrefix hist (t + 1) ∧ wPrefix hist (t + 1) < total

/-- Loop invariant of the Otsu scan after processing thresholds 0..k-1:
the running weight and (while not done) intensity sum are the prefix sums;
the break was taken only once the lower class swallowed the whole image;
and (maxVar, thr) is (-1, 160) while no threshold was considered, and
otherwise the running maximum of the between-class variance together with
a threshold attaining it. -/
def OtsuInv (hist : ℕ → ℕ) (total k : ℕ) (s : OtsuState) : Prop :=
  s.wb = wPrefix hist k ∧
  (s.done = false → s.sumb = sPrefix hist k) ∧
  (s.done = true → wPrefix hist k = total) ∧
  (((∀ t < k, ¬ considered hist total t) ∧ s.maxVar = -1 ∧ s.thr = 160) ∨
   (considered hist total s.thr ∧ s.thr < k ∧
    varBetween hist s.thr = s.maxVar ∧
    ∀ t < k, considered hist total t → varBetween hist t ≤ s.maxVar))

/-- A small concrete histogram: two pixels at level 0 and one each at
levels 1 and 2 (all other bins empty). -/
def histWitness : ℕ → ℕ :=
  fun n => if n = 0 then 2 else if n = 1 then 1 else if n = 2 then 1 else 0

/-- Modelled from the spec: "the first extractor producing a non-empty
value wins" — scan candidate values in priority order, return the first
non-empty one. -/
def firstNonEmptySpec : List (Option String) → Option String
  | [] => none
  | none :: rest => firstNonEmptySpec rest
  | some s :: rest => if s = "" then firstNonEmptySpec rest else some s

/-- Modelled from the spec: the normalized slugs of a request list that
survive validation. -/
def validSlugs (l : List String) : List String :=
  (l.map slugOf).filter (fun s => s != "" && decide (s ∈ SERVICIOS_TODOS))

/-- Modelled from the spec: the entries of a request list that still
resolve outside the canonical set (these must be reported in the 400). -/
def invalidEntries (l : List String) : List String :=
  l.filter (fun item => slugOf item != "" && decide (slugOf item ∉ SERVICIOS_TODOS))

/-- Order-preserving first-occurrence deduplication into an accumulator. -/
def dedupInto (acc : List String) : List String → List String
  | [] => acc
  | s :: rest => dedupInto (if s ∈ acc then acc else acc ++ [s]) rest

/-! Theorems. -/

/-- C6: a wrapped lookup that exceeds its timeout budget yields
ok=false, status=504 and the error message "Timeout después de {timeoutMs}
ms" (the Spanish rendering of "Timeout after {timeoutMs} ms", parameterized
by the configured timeout) — the wrapper returns instead of raising — and
every outcome (completion, timeout, HTTPException, any other fault)
produces an envelope whose elapsed-duration field is populated. -/
theorem wrap_servicio_timeout_and_duration :
    ∀ (timeoutMs elapsed : Nat) (o : Outcome),
      (wrapOutcome timeoutMs elapsed .timedOut =
        { ok := false, error := some (timeoutMsg timeoutMs),
          status := some 504, duracion_ms := some elapsed }) ∧
      (wrapOutcome timeoutMs elapsed o).duracion_ms = some elapsed ∧
      timeoutMsg SERVICE_TIMEOUT_MS = "Timeout después de 20000 ms" := by
  intro tm el o
  refine ⟨rfl, ?_, rfl⟩
  cases o <;> rfl

/-- Closed-form evaluation of the captcha answer gate. -/
theorem captchaAnswerGate_eval (s : String) :
    captchaAnswerGate s =
      if (s.data.filter Char.isDigit).length < 6 then
        Except.error ⟨400, "Licencia: captcha_text debe tener 6 dígitos"⟩
      else Except.ok (String.mk ((s.data.filter Char.isDigit).take 6)) := by
  have hlen : (_clean_6_digits s).length =
      min 6 (s.data.filter Char.isDigit).length := by
    simp [_clean_6_digits]
  by_cases h : (s.data.filter Char.isDigit).length < 6
  · have hne : (_clean_6_digits s).length ≠ 6 := by
      rw [hlen]; omega
    simp [captchaAnswerGate, hne, h]
  · have heq : (_clean_6_digits s).length = 6 := by
      rw [hlen]; omega
    simp [captchaAnswerGate, heq, h, _clean_6_digits]

/-- C10: the captcha answer gate strips non-digits, keeps the first six
digits, rejects with HTTP 400 exactly when the input holds fewer than six
digit characters, and silently accepts any input with six or more digits
using only its first six digits (e.g. "12a34b56c78" is accepted as
"123456"). -/
theorem captcha_answer_gate_spec :
    ∀ s : String,
      (captchaAnswerGate s =
        if (s.data.filter Char.isDigit).length < 6 then
          Except.error ⟨400, "Licencia: captcha_text debe tener 6 dígitos"⟩
        else Except.ok (String.mk ((s.data.filter Char.isDigit).take 6))) ∧
      captchaAnswerGate "12a34b56c78" = Except.ok "123456" :=
  fun s => ⟨captchaAnswerGate_eval s, rfl⟩

/-- C1 counterexample: a licencia-by-dni lookup whose captcha was NOT
accepted (captcha_valido = false) still completes with a payload whose
literal "ok" key is True, so the task wrapper reports ok=true — refuting
that ok=true requires the challenge to have been accepted. -/
theorem licencia_ok_without_captcha_counterexample :
    (_wrap_licencia_por_dni 1234
        (.completed (licencia_dni_result { captcha_valido := false }))).ok
      = true ∧
    (licencia_dni_result { captcha_valido := false }).captchaValido =
      some false := ⟨rfl, rfl⟩

/-- C1 amended: the wrapper reports ok=true exactly when the wrapped
operation completed without timeout or exception AND the payload's "ok"
key (defaulting to true) is true; but the licencia lookups set that key to
the constant True, independent of captcha acceptance, so a licencia
ServiceResult with ok=true need not have had its captcha accepted. -/
theorem wrap_servicio_ok_iff_inner_ok :
    ∀ (timeoutMs elapsed : Nat) (o : Outcome),
      ((wrapOutcome timeoutMs elapsed o).ok = true ↔
        ∃ d, o = .completed d ∧ inner_ok d = true) ∧
      (∀ r : ResultadoIntento, inner_ok (licencia_dni_result r) = true) ∧
      (∀ r : ResultadoIntento, inner_ok (licencia_nombre_result r) = true) := by
  intro tm el o
  refine ⟨?_, fun _ => rfl, fun _ => rfl⟩
  cases o with
  | completed d =>
    constructor
    · intro h; exact ⟨d, rfl, h⟩
    · rintro ⟨d', hd, h⟩
      injection hd with hd'
      exact hd' ▸ h
  | timedOut => simp [wrapOutcome]
  | httpError s det => simp [wrapOutcome]
  | fault m => simp [wrapOutcome]

/-- C8 counterexample: exactly on the claim's failure modes — no site key
recovered within the bounded wait, or the backend returning no token — the
solver raises an HTTPException, and the caller's `except HTTPException`
branch closes the context and re-raises WITHOUT trying the
clickable-checkbox path. -/
theorem turnstile_no_fallback_counterexample :
    sunarp_turnstile_attempt
        { hasApiKey := true, sitekey := none, backend := .ok "tok" } false =
      .abortedHttp ⟨500, "No se pudo obtener el sitekey de Turnstile"⟩ ∧
    sunarp_turnstile_attempt
        { hasApiKey := true, sitekey := some "0xKEY", backend := .ok "" } false =
      .abortedHttp ⟨500, "CapMonster no devolvió token de Turnstile"⟩ :=
  ⟨rfl, rfl⟩

/-- C8 amended: the solve call does fail explicitly (never a silent
success) when no site key is recovered or the backend returns no token;
but the caller falls back to the clickable-checkbox path only when the
solver fails with a NON-HTTP (generic) exception — every structured
HTTPException failure, including the two above, aborts the lookup without
the checkbox fallback. -/
theorem turnstile_explicit_failure_and_fallback :
    (∀ br : Except String String,
      solve_turnstile_with_capmonster
          { hasApiKey := true, sitekey := none, backend := br } =
        .error ⟨500, "No se pudo obtener el sitekey de Turnstile"⟩) ∧
    (∀ sk : String,
      solve_turnstile_with_capmonster
          { hasApiKey := true, sitekey := some sk, backend := .ok "" } =
        .error ⟨500, "CapMonster no devolvió token de Turnstile"⟩) ∧
    (∀ w : TurnstileWorld,
      (∃ e, solve_turnstile_with_capmonster w = .error e ∧
        sunarp_turnstile_attempt w false = .abortedHttp e) ∨
      (∃ t, t ≠ "" ∧ solve_turnstile_with_capmonster w = .ok t ∧
        sunarp_turnstile_attempt w false = .solved t)) ∧
    (∀ w : TurnstileWorld,
      sunarp_turnstile_attempt w true = .checkboxFallback) := by
  refine ⟨fun br => rfl, fun sk => rfl, ?_, fun w => rfl⟩
  intro w
  cases hs : solve_turnstile_with_capmonster w with
  | error e =>
    exact Or.inl ⟨e, rfl, by simp [sunarp_turnstile_attempt, hs]⟩
  | ok t =>
    refine Or.inr ⟨t, ?_, rfl, by simp [sunarp_turnstile_attempt, hs]⟩
    intro ht
    subst ht
    revert hs
    unfold solve_turnstile_with_capmonster
    rcases w with ⟨hk, sk, bk⟩
    cases hk <;> cases sk <;> simp
    cases bk <;> simp
    intro h
    split at h <;> simp_all

/-- The dni-by-names extractor never produces the empty string: rows are
stripped and only a non-empty dni is returned. -/
theorem dni_desde_dni_nombre_ne_empty (b : Option Block) :
    _dni_desde_dni_nombre b ≠ some "" := by
  unfold _dni_desde_dni_nombre
  rcases b with _ | blk
  · simp
  · by_cases hok : blk.ok
    · simp only [hok, not_true_eq_false, if_neg, ite_false]
      rcases hd : blk.data with _ | d
      · simp
      · cases d with
        | dniNombreD okF filas =>
          intro hfind
          have := List.find?_some hfind
          simp_all
        | sunarpD okF p => simp
        | licenciaD okF cv r => simp
        | dniPeruD okF s => simp
        | genericD okF => simp
    · simp [hok]

/-- Python's `a or rest` prepends one candidate to a first-non-empty scan:
the value wins iff it is truthy, otherwise the scan continues. -/
theorem pyOr_cons (o rest : Option String) (l : List (Option String))
    (hrest : rest = firstNonEmptySpec l) :
    pyOr o rest = firstNonEmptySpec (o :: l) := by
  rcases o with _ | s
  · simp [pyOr, pyTruthy, firstNonEmptySpec, hrest]
  · by_cases hs : s = ""
    · subst hs
      simp [pyOr, pyTruthy, firstNonEmptySpec, hrest]
    · simp [pyOr, pyTruthy, hs, firstNonEmptySpec]

/-- C2: the redam document number is resolved by the fixed priority chain
request-dni, then licencia, then dni_peru, then dni_nombre — the first
non-empty value wins and later extractors are never consulted (the chain
equals a first-non-empty scan in that order); when every source is empty
the aggregator synthesizes {ok:false, status:400, "dni requerido para el
servicio redam"} without dispatching the redam lookup; and the request
{placa "ABC-123", services ["redam"], no dni} yields exactly that
400-shaped per-service block inside an ok aggregate response, with no
lookup dispatched at all. -/
theorem redam_dni_resolution_and_missing_dni :
    (∀ (reqDni : Option String) (lic dperu dnom : Option Block),
      dni_redam_chain reqDni lic dperu dnom =
        firstNonEmptySpec [reqDni, _dni_desde_licencia lic,
          _dni_desde_dni_peru dperu, _dni_desde_dni_nombre dnom]) ∧
    (∀ (elapsed : Nat) (o : Outcome),
      _wrap_redam none elapsed o = (redamMissingDniBlock elapsed, []) ∧
      _wrap_redam (some "") elapsed o = (redamMissingDniBlock elapsed, [])) ∧
    (∀ w : World,
      consulta_vehicular_full
          { placa := "ABC-123", servicios := some ["redam"], dni := none } w =
        (.ok { ok := true, placa := "ABC-123", dni := none,
               servicios :=
                 { redam := some (redamMissingDniBlock (w.elapsed "redam")) },
               orden_solicitado := ["redam"] }, [])) := by
  refine ⟨?_, fun el o => ⟨rfl, rfl⟩, fun w => rfl⟩
  intro reqDni lic dperu dnom
  have h3 := dni_desde_dni_nombre_ne_empty dnom
  have base : _dni_desde_dni_nombre dnom =
      firstNonEmptySpec [_dni_desde_dni_nombre dnom] := by
    rcases hd : _dni_desde_dni_nombre dnom with _ | s
    · rfl
    · have hs : s ≠ "" := by
        rintro rfl
        exact h3 hd
      simp [firstNonEmptySpec, hs]
  unfold dni_redam_chain
  exact pyOr_cons _ _ _ (pyOr_cons _ _ _ (pyOr_cons _ _ _ base))

/-- Characterization of the `_normalizar_servicios` fold: the normalized
component collects the valid slugs with first-occurrence deduplication and
the invalid component collects exactly the offending input entries. -/
theorem normStep_foldl (l : List String) :
    ∀ n0 inv0 : List String,
      l.foldl normStep (n0, inv0) =
        (dedupInto n0 (validSlugs l), inv0 ++ invalidEntries l) := by
  induction l with
  | nil => intro n0 inv0; simp [validSlugs, invalidEntries, dedupInto]
  | cons x xs ih =>
    intro n0 inv0
    by_cases hempty : slugOf x = ""
    · have hstep : normStep (n0, inv0) x = (n0, inv0) := by
        simp [normStep, hempty]
      simp only [List.foldl_cons, hstep, ih]
      have hv : validSlugs (x :: xs) = validSlugs xs := by
        simp [validSlugs, List.filter_cons, hempty]
      have hi : invalidEntries (x :: xs) = invalidEntries xs := by
        simp [invalidEntries, List.filter_cons, hempty]
      rw [hv, hi]
    · by_cases hval : slugOf x ∈ SERVICIOS_TODOS
      · have hstep : normStep (n0, inv0) x =
            ((if slugOf x ∈ n0 then n0 else n0 ++ [slugOf x]), inv0) := by
          by_cases hm : slugOf x ∈ n0 <;> simp [normStep, hempty, hval, hm]
        simp only [List.foldl_cons, hstep, ih]
        have hv : validSlugs (x :: xs) = slugOf x :: validSlugs xs := by
          simp [validSlugs, List.filter_cons, hempty, hval]
        have hi : invalidEntries (x :: xs) = invalidEntries xs := by
          simp [invalidEntries, List.filter_cons, hval]
        rw [hv, hi, dedupInto]
      · have hstep : normStep (n0, inv0) x = (n0, inv0 ++ [x]) := by
          simp [normStep, hempty, hval]
        simp only [List.foldl_cons, hstep, ih]
        have hv : validSlugs (x :: xs) = validSlugs xs := by
          simp [validSlugs, List.filter_cons, hval]
        have hi : invalidEntries (x :: xs) = x :: invalidEntries xs := by
          simp [invalidEntries, List.filter_cons, hempty, hval]
        rw [hv, hi]
        simp

/-- First-occurrence deduplication preserves Nodup accumulators. -/
theorem dedupInto_nodup :
    ∀ l acc : List String, acc.Nodup → (dedupInto acc l).Nodup := by
  intro l
  induction l with
  | nil => intro acc h; simpa [dedupInto] using h
  | cons s rest ih =>
    intro acc h
    rw [dedupInto]
    by_cases hs : s ∈ acc
    · simpa [hs] using ih acc h
    · refine ih _ ?_
      simp [hs, List.nodup_append, h]

/-- Members of the deduplicated list come from the accumulator or the
input. -/
theorem dedupInto_mem :
    ∀ (l acc : List String) (y : String),
      y ∈ dedupInto acc l → y ∈ acc ∨ y ∈ l := by
  intro l
  induction l with
  | nil => intro acc y h; exact Or.inl (by simpa [dedupInto] using h)
  | cons s rest ih =>
    intro acc y h
    rw [dedupInto] at h
    rcases ih _ y h with hy | hy
    · by_cases hs : s ∈ acc
      · rw [if_pos hs] at hy
        exact Or.inl hy
      · rw [if_neg hs] at hy
        rcases List.mem_append.mp hy with hy | hy
        · exact Or.inl hy
        · exact Or.inr (by simp_all)
    · exact Or.inr (List.mem_cons_of_mem s hy)

/-- Deduplicating a list that is already duplicate-free (relative to the
accumulator) is the identity. -/
theorem dedupInto_self :
    ∀ l acc : List String, (acc ++ l).Nodup → dedupInto acc l = acc ++ l := by
  intro l
  induction l with
  | nil => intro acc _; simp [dedupInto]
  | cons s rest ih =>
    intro acc h
    have hs : s ∉ acc := by
      rcases List.nodup_append.mp h with ⟨_, _, hdisj⟩
      intro hmem
      exact hdisj hmem (by simp)
    rw [dedupInto, if_neg hs, List.append_cons acc s rest] at *
    exact ih (acc ++ [s]) h

/-- Every canonical service name is its own slug and non-empty. -/
theorem servicios_todos_canonical :
    ∀ y ∈ SERVICIOS_TODOS, slugOf y = y ∧ y ≠ "" := by decide

/-- Evaluation of `_normalizar_servicios` on a non-empty request list in
terms of the spec-side valid-slug / invalid-entry decomposition. -/
theorem normalizar_eval (l : List String) (hl : l ≠ []) :
    _normalizar_servicios (some l) =
      if invalidEntries l = [] then .ok (dedupInto [] (validSlugs l))
      else .error ⟨400, "Servicios no soportados: " ++
        String.intercalate ", " (invalidEntries l)⟩ := by
  simp only [_normalizar_servicios]
  rw [if_neg hl]
  have h := normStep_foldl l [] []
  simp only [List.nil_append] at h
  by_cases hinv : invalidEntries l = [] <;> simp [h, hinv]

/-- C3 counterexample: normalization is NOT idempotent on every input — the
input [""] normalizes to the empty list, but normalizing the empty list
returns the default service list instead of the empty list. -/
theorem normalizar_idempotence_counterexample :
    _normalizar_servicios (some [""]) = .ok [] ∧
    _normalizar_servicios (some ([] : List String)) =
      .ok DEFAULT_SERVICIOS_VEHICULO ∧
    DEFAULT_SERVICIOS_VEHICULO ≠ ([] : List String) := by
  exact ⟨rfl, rfl, by decide⟩

/-- C3 amended: normalization (strip, lowercase, one alias application) is
deterministic, produces a deduplicated order-preserving list of canonical
names, and re-normalizing a NON-EMPTY normalized list returns it unchanged
(idempotence fails only through the empty-list fallback to the default
list); a request with entries that still resolve outside the canonical set
is rejected with HTTP 400 whose detail lists exactly those entries, and any
normalization failure happens before a single lookup is dispatched. -/
theorem normalizar_servicios_amended :
    (∀ l ys : List String, _normalizar_servicios (some l) = .ok ys →
      ys.Nodup ∧ (∀ y ∈ ys, y ∈ SERVICIOS_TODOS) ∧
      (ys ≠ [] → _normalizar_servicios (some ys) = .ok ys)) ∧
    (∀ l : List String, l ≠ [] →
      (invalidEntries l = [] →
        _normalizar_servicios (some l) = .ok (dedupInto [] (validSlugs l))) ∧
      (invalidEntries l ≠ [] →
        _normalizar_servicios (some l) =
          .error ⟨400, "Servicios no soportados: " ++
            String.intercalate ", " (invalidEntries l)⟩)) ∧
    (∀ (req : FullRequest) (w : World) (e : HErr) (log : List String),
      consulta_vehicular_full req w = (.error e, log) → log = []) := by
  have hmain : ∀ l ys : List String, l ≠ [] →
      _normalizar_servicios (some l) = .ok ys →
      ys = dedupInto [] (validSlugs l) ∧ invalidEntries l = [] := by
    intro l ys hl hok
    rw [normalizar_eval l hl] at hok
    by_cases hinv : invalidEntries l = []
    · rw [if_pos hinv] at hok
      injection hok with h
      exact ⟨h.symm, hinv⟩
    · rw [if_neg hinv] at hok
      exact absurd hok (by simp)
  refine ⟨?_, ?_, ?_⟩
  · intro l ys hok
    have hfacts : ys.Nodup ∧ ∀ y ∈ ys, y ∈ SERVICIOS_TODOS := by
      by_cases hl : l = []
      · subst hl
        have hys : ys = DEFAULT_SERVICIOS_VEHICULO := by
          have : Except.ok (ε := HErr) DEFAULT_SERVICIOS_VEHICULO = .ok ys := hok
          injection this with h
          exact h.symm
        subst hys
        exact ⟨by decide, by decide⟩
      · obtain ⟨hys, -⟩ := hmain l ys hl hok
        subst hys
        constructor
        · exact dedupInto_nodup _ [] List.nodup_nil
        · intro y hy
          rcases dedupInto_mem _ [] y hy with h | h
          · simp at h
          · have := (List.mem_filter.mp h).2
            simp only [Bool.and_eq_true, decide_eq_true_eq] at this
            exact this.2
    refine ⟨hfacts.1, hfacts.2, ?_⟩
    intro hne
    have hcanon : ∀ y ∈ ys, slugOf y = y ∧ y ≠ "" := fun y hy =>
      servicios_todos_canonical y (hfacts.2 y hy)
    have hmap : ys.map slugOf = ys := by
      have := List.map_congr_left (f := slugOf) (g := id)
        (fun y hy => (hcanon y hy).1)
      simpa using this
    have hvalid : validSlugs ys = ys := by
      unfold validSlugs
      rw [hmap]
      apply List.filter_eq_self.mpr
      intro y hy
      simp only [Bool.and_eq_true, bne_iff_ne, ne_eq, decide_eq_true_eq]
      exact ⟨(hcanon y hy).2, hfacts.2 y hy⟩
    have hinv : invalidEntries ys = [] := by
      unfold invalidEntries
      apply List.filter_eq_nil_iff.mpr
      intro y hy
      simp only [Bool.and_eq_true, bne_iff_ne, ne_eq, decide_eq_true_eq,
        not_and]
      intro _
      rw [(hcanon y hy).1]
      exact fun hcontra => hcontra (hfacts.2 y hy)
    rw [normalizar_eval ys hne, hinv, if_pos rfl, hvalid,
      dedupInto_self ys [] (by simpa using hfacts.1)]
    simp
  · intro l hl
    constructor
    · intro hinv
      rw [normalizar_eval l hl, if_pos hinv]
    · intro hinv
      rw [normalizar_eval l hl, if_neg hinv]
  · intro req w e log h
    unfold consulta_vehicular_full at h
    split at h
    · have := congrArg Prod.snd h
      simpa using this.symm
    · have h1 := congrArg Prod.fst h
      simp at h1

/-- C3 amended witness: a concrete mixed request normalizes to
["licencia", "soat"], which re-normalizes to itself; a request containing
"bogus" is rejected with a 400 naming exactly "bogus". -/
theorem normalizar_servicios_amended_witness :
    _normalizar_servicios (some ["LIC ", "soat", "lic"]) =
      .ok ["licencia", "soat"] ∧
    _normalizar_servicios (some ["licencia", "soat"]) =
      .ok ["licencia", "soat"] ∧
    _normalizar_servicios (some ["soat", "bogus"]) =
      .error ⟨400, "Servicios no soportados: bogus"⟩ := by
  have h := normalizar_servicios_amended
  have h1 : _normalizar_servicios (some ["LIC ", "soat", "lic"]) =
      .ok (dedupInto [] (validSlugs ["LIC ", "soat", "lic"])) :=
    (h.2.1 ["LIC ", "soat", "lic"] (by decide)).1 (by decide)
  have hval : dedupInto [] (validSlugs ["LIC ", "soat", "lic"]) =
      ["licencia", "soat"] := by decide
  have hfirst : _normalizar_servicios (some ["LIC ", "soat", "lic"]) =
      .ok ["licencia", "soat"] := by rw [h1, hval]
  refine ⟨hfirst, ?_, ?_⟩
  · exact (h.1 ["LIC ", "soat", "lic"] ["licencia", "soat"] hfirst).2.2
      (by decide)
  · have h3 := (h.2.1 ["soat", "bogus"] (by decide)).2 (by decide)
    exact h3.trans (congrArg Except.error (by decide))

/-- Looking up a key in a list from which it was just filtered out finds
nothing. -/
theorem lookup_filter_self_none (sid : String)
    (l : List (String × SessData)) :
    (l.filter (fun x => x.1 != sid)).lookup sid = none := by
  induction l with
  | nil => rfl
  | cons x xs ih =>
    obtain ⟨k, v⟩ := x
    by_cases h : k = sid
    · simpa [List.filter_cons, h] using ih
    · have hb : (k != sid) = true := by simp [h]
      have hs : (sid == k) = false := by simp [Ne.symm h]
      simpa [List.filter_cons, hb, List.lookup, hs] using ih

/-- With duplicate-free keys, lookup of a member's key returns its value. -/
theorem lookup_of_mem_nodupkeys (l : List (String × SessData))
    (kv : String × SessData) (hnd : (l.map Prod.fst).Nodup)
    (hmem : kv ∈ l) : l.lookup kv.1 = some kv.2 := by
  induction l with
  | nil => cases hmem
  | cons x xs ih =>
    obtain ⟨k, v⟩ := x
    rw [List.map_cons, List.nodup_cons] at hnd
    rcases List.mem_cons.mp hmem with rfl | hmem'
    · simp [List.lookup]
    · have hx : k ≠ kv.1 := by
        intro he
        apply hnd.1
        rw [he]
        exact List.mem_map.mpr ⟨kv, hmem', rfl⟩
      have hrec := ih hnd.2 hmem'
      have hs : (kv.1 == k) = false := by simp [Ne.symm hx]
      simpa [List.lookup, hs] using hrec

/-- Membership through the stable insertion step. -/
theorem mem_insertByCreated (x y : String × SessData)
    (l : List (String × SessData)) :
    y ∈ insertByCreated x l ↔ y = x ∨ y ∈ l := by
  induction l with
  | nil => simp [insertByCreated]
  | cons z zs ih =>
    by_cases h : x.2.created_at ≤ z.2.created_at
    · simp only [insertByCreated, if_pos h, List.mem_cons]
    · simp only [insertByCreated, if_neg h, List.mem_cons, ih]
      tauto

/-- The stable sort has the same members as its input. -/
theorem mem_sortByCreated (y : String × SessData) :
    ∀ l : List (String × SessData), y ∈ sortByCreated l ↔ y ∈ l := by
  intro l
  induction l with
  | nil => simp [sortByCreated]
  | cons x xs ih =>
    rw [sortByCreated, mem_insertByCreated, ih, List.mem_cons]

/-- The strictly oldest element ends up at the head of the stable sort. -/
theorem sortByCreated_head_min (l : List (String × SessData))
    (kv : String × SessData) (hmem : kv ∈ l)
    (hmin : ∀ x ∈ l, x ≠ kv → kv.2.created_at < x.2.created_at) :
    ∃ rest, sortByCreated l = kv :: rest := by
  induction l with
  | nil => cases hmem
  | cons x xs ih =>
    rw [sortByCreated]
    rcases List.mem_cons.mp hmem with rfl | hmem'
    · cases hS : sortByCreated xs with
      | nil => exact ⟨[], rfl⟩
      | cons s rest' =>
        have hsmem : s ∈ xs := by
          have hsS : s ∈ sortByCreated xs := by rw [hS]; simp
          exact (mem_sortByCreated s xs).mp hsS
        have hle : kv.2.created_at ≤ s.2.created_at := by
          by_cases hxs : s = kv
          · rw [hxs]
          · exact le_of_lt (hmin s (List.mem_cons_of_mem _ hsmem) hxs)
        exact ⟨s :: rest', by simp [insertByCreated, hle]⟩
    · have hmin' : ∀ x' ∈ xs, x' ≠ kv →
          kv.2.created_at < x'.2.created_at :=
        fun x' hx' => hmin x' (List.mem_cons_of_mem _ hx')
      obtain ⟨rest, hrest⟩ := ih hmem' hmin'
      rw [hrest]
      by_cases hxkv : x = kv
      · subst hxkv
        exact ⟨x :: rest, by simp [insertByCreated]⟩
      · have hlt : kv.2.created_at < x.2.created_at :=
          hmin x (List.mem_cons_self x xs) hxkv
        have hnle : ¬ x.2.created_at ≤ kv.2.created_at := not_le.mpr hlt
        exact ⟨insertByCreated x rest, by simp [insertByCreated, hnle]⟩

/-- C4 counterexample: with the registry exactly at its capacity (here
capacity 1 with one live, unexpired session), creating the next session
evicts nothing — both sessions are live afterwards and no automation
context has been released, so "creating session N+1 evicts the single
oldest" is false at creation time. -/
theorem session_capacity_counterexample :
    iniciar_sesion_licencia_dni 10 120 1 "40712772" "sidB" 2 "imgB" false
        ⟨[("sidA", ⟨0, "dni", "11111111", "imgA", 1⟩)], []⟩ =
      (⟨[("sidA", ⟨0, "dni", "11111111", "imgA", 1⟩),
         ("sidB", ⟨10, "dni", "40712772", "imgB", 2⟩)], []⟩, .ok "sidB") := by
  rfl

/-- C4 amended: eviction is deferred to the cleanup sweep that runs at the
START of each session creation: a sweep over a registry holding N+1 fresh
sessions (the state reached right after creating session N+1 at capacity
N) removes exactly the strictly oldest session by creation time and
releases its automation context exactly once (one close event appended,
the session removed); session creation is exactly sweep-then-insert; and
closing an already-closed session is a no-op, so no removal path can
release a context twice. -/
theorem session_registry_amended :
    (∀ (now ttl maxN : Nat) (reg : Registry) (kv : String × SessData),
      (reg.sessions.map Prod.fst).Nodup →
      kv ∈ reg.sessions →
      (∀ x ∈ reg.sessions, ¬ now - x.2.created_at > ttl) →
      reg.sessions.length = maxN + 1 →
      (∀ x ∈ reg.sessions, x ≠ kv →
        kv.2.created_at < x.2.created_at) →
      _cleanup_licencia_sessions now ttl maxN reg =
        { sessions := reg.sessions.filter (fun x => x.1 != kv.1),
          closedCtxs := reg.closedCtxs ++ [kv.2.ctx] }) ∧
    (∀ (now ttl maxN : Nat) (dni sid : String) (ctx : Nat) (img : String)
        (reg : Registry),
      iniciar_sesion_licencia_dni now ttl maxN dni sid ctx img false reg =
        ({ _cleanup_licencia_sessions now ttl maxN reg with
           sessions := (_cleanup_licencia_sessions now ttl maxN reg).sessions
             ++ [(sid, { created_at := now, kind := "dni",
                         param_dni := pyStrip dni, captcha_b64 := img,
                         ctx := ctx })] }, .ok sid)) ∧
    (∀ (sid : String) (reg : Registry),
      _close_licencia_session sid (_close_licencia_session sid reg) =
        _close_licencia_session sid reg) := by
  refine ⟨?_, fun now ttl maxN dni sid ctx img reg => rfl, ?_⟩
  · intro now ttl maxN reg kv hnd hmem hfresh hlen hmin
    have hne : reg.sessions ≠ [] := by
      intro h
      rw [h] at hlen
      simp at hlen
    have hexp : reg.sessions.filter
        (fun kv => decide (now - kv.2.created_at > ttl)) = [] := by
      apply List.filter_eq_nil_iff.mpr
      intro x hx
      simp [hfresh x hx]
    have hexcess : reg.sessions.length - maxN = 1 := by omega
    obtain ⟨rest, hsort⟩ := sortByCreated_head_min reg.sessions kv hmem hmin
    have htake : (sortByCreated reg.sessions).take
        (reg.sessions.length - maxN) = [kv] := by
      rw [hexcess, hsort]
      rfl
    unfold _cleanup_licencia_sessions
    rw [if_neg hne]
    simp only [hexp, List.map_nil, List.foldl_nil]
    rw [if_pos (by rw [hlen]; exact Nat.lt_succ_self maxN), htake]
    simp only [List.foldl_cons, List.foldl_nil]
    unfold _close_licencia_session
    rw [lookup_of_mem_nodupkeys reg.sessions kv hnd hmem]
  · intro sid reg
    cases hl : reg.sessions.lookup sid with
    | none =>
      have h1 : _close_licencia_session sid reg = reg := by
        unfold _close_licencia_session
        rw [hl]
      rw [h1, h1]
    | some s =>
      have h1 : _close_licencia_session sid reg =
          { sessions := reg.sessions.filter (fun kv => kv.1 != sid),
            closedCtxs := reg.closedCtxs ++ [s.ctx] } := by
        unfold _close_licencia_session
        rw [hl]
      rw [h1]
      simp only [_close_licencia_session, lookup_filter_self_none]

/-- C4 amended witness: a sweep at capacity 1 over two fresh sessions
evicts exactly the older one ("sidA", context 1) and records exactly one
close for its context. -/
theorem session_registry_amended_witness :
    _cleanup_licencia_sessions 9 120 1
        ⟨[("sidA", ⟨0, "dni", "11111111", "imgA", 1⟩),
          ("sidB", ⟨5, "dni", "22222222", "imgB", 2⟩)], []⟩ =
      ⟨[("sidB", ⟨5, "dni", "22222222", "imgB", 2⟩)], [1]⟩ := by
  have h := session_registry_amended.1 9 120 1
    ⟨[("sidA", ⟨0, "dni", "11111111", "imgA", 1⟩),
      ("sidB", ⟨5, "dni", "22222222", "imgB", 2⟩)], []⟩
    ("sidA", ⟨0, "dni", "11111111", "imgA", 1⟩)
    (by decide) (by decide) (by decide) (by decide) (by decide)
  exact h.trans (by decide)

/-- Refreshing a session rewrites exactly its own registry entry. -/
theorem lookup_refreshSession (sid : String) (now : Nat) (b64 : String)
    (l : List (String × SessData)) :
    (refreshSession sid now b64 l).lookup sid =
      (l.lookup sid).map
        (fun s => { s with created_at := now, captcha_b64 := b64 }) := by
  induction l with
  | nil => rfl
  | cons x xs ih =>
    obtain ⟨k, v⟩ := x
    by_cases h : k = sid
    · subst h
      have hhead : refreshSession k now b64 ((k, v) :: xs) =
          (k, { v with created_at := now, captcha_b64 := b64 }) ::
            refreshSession k now b64 xs := by
        simp [refreshSession]
      rw [hhead]
      simp [List.lookup]
    · have hs : (sid == k) = false := by simp [Ne.symm h]
      have hhead : refreshSession sid now b64 ((k, v) :: xs) =
          (k, v) :: refreshSession sid now b64 xs := by
        simp [refreshSession, h]
      rw [hhead]
      simp only [List.lookup, hs]
      exact ih

/-- C5: submitting an answer against a live challenge session follows the
session protocol — an unknown or TTL-expired session id yields HTTP 404;
an answer with fewer than six digits yields HTTP 400; a rejected captcha
keeps the session alive with its creation time refreshed to now and its
stored image replaced by the freshly captured one, returning a
need-new-answer signal carrying that new image and releasing no context;
an accepted captcha removes the session from the registry, releases its
automation context exactly once, and returns the parsed result. -/
theorem challenge_submit_protocol :
    ∀ (now ttl maxN : Nat) (sid text : String) (parse : ParseResult)
      (img : String) (reg : Registry) (sess : SessData),
      ((_cleanup_licencia_sessions now ttl maxN reg).sessions.lookup sid =
          none →
        enviar_captcha_sesion_licencia now ttl maxN sid text parse
            (some img) reg =
          (_cleanup_licencia_sessions now ttl maxN reg,
           .error ⟨404, "Licencia: sesión expirada o no existe"⟩)) ∧
      ((_cleanup_licencia_sessions now ttl maxN reg).sessions.lookup sid =
          some sess →
        ((text.data.filter Char.isDigit).length < 6 →
          enviar_captcha_sesion_licencia now ttl maxN sid text parse
              (some img) reg =
            (_cleanup_licencia_sessions now ttl maxN reg,
             .error ⟨400, "Licencia: captcha_text debe tener 6 dígitos"⟩)) ∧
        (¬ (text.data.filter Char.isDigit).length < 6 →
          ((_cleanup_licencia_sessions now ttl maxN reg).sessions.map
            Prod.fst).Nodup →
          (parse.captcha_valido = false →
            (enviar_captcha_sesion_licencia now ttl maxN sid text parse
                (some img) reg).1.sessions.lookup sid =
              some { sess with created_at := now, captcha_b64 := img } ∧
            (enviar_captcha_sesion_licencia now ttl maxN sid text parse
                (some img) reg).1.closedCtxs =
              (_cleanup_licencia_sessions now ttl maxN reg).closedCtxs ∧
            (enviar_captcha_sesion_licencia now ttl maxN sid text parse
                (some img) reg).2 =
              .ok { ok := false, captcha_valido := false, need_captcha := true,
                    mensaje_modal := some (if parse.mensaje_modal ≠ "" then
                      parse.mensaje_modal else "Captcha inválido"),
                    captcha_png_base64 := some img }) ∧
          (parse.captcha_valido = true →
            (enviar_captcha_sesion_licencia now ttl maxN sid text parse
                (some img) reg).1.sessions.lookup sid = none ∧
            (enviar_captcha_sesion_licencia now ttl maxN sid text parse
                (some img) reg).1.closedCtxs =
              (_cleanup_licencia_sessions now ttl maxN reg).closedCtxs ++
                [sess.ctx] ∧
            (enviar_captcha_sesion_licencia now ttl maxN sid text parse
                (some img) reg).2 =
              .ok { ok := true, captcha_valido := true,
                    captcha_ingresado := some (_clean_6_digits text),
                    sin_resultados := some parse.no_result,
                    dni := if sess.kind = "dni" then some sess.param_dni
                           else none }))) := by
  intro now ttl maxN sid text parse img reg sess
  constructor
  · intro hnone
    simp only [enviar_captcha_sesion_licencia, hnone]
  · intro hsome
    constructor
    · intro hshort
      simp only [enviar_captcha_sesion_licencia, hsome,
        captchaAnswerGate_eval, if_pos hshort]
    · intro hlong _hnd
      have hgate : captchaAnswerGate text =
          Except.ok (String.mk ((text.data.filter Char.isDigit).take 6)) := by
        rw [captchaAnswerGate_eval, if_neg hlong]
      constructor
      · intro hcv
        have hrun : enviar_captcha_sesion_licencia now ttl maxN sid text parse
            (some img) reg =
            ({ _cleanup_licencia_sessions now ttl maxN reg with
               sessions := refreshSession sid now img
                 (_cleanup_licencia_sessions now ttl maxN reg).sessions },
             .ok { ok := false, captcha_valido := false, need_captcha := true,
                   mensaje_modal := some (if parse.mensaje_modal ≠ "" then
                     parse.mensaje_modal else "Captcha inválido"),
                   captcha_png_base64 := some img }) := by
          simp only [enviar_captcha_sesion_licencia, hsome, hgate, hcv,
            Bool.false_eq_true, not_false_eq_true, if_pos, Option.getD_some]
        refine ⟨?_, ?_, ?_⟩
        · rw [hrun]
          simp only
          rw [lookup_refreshSession, hsome]
          rfl
        · rw [hrun]
        · rw [hrun]
      · intro hcv
        have hrun : enviar_captcha_sesion_licencia now ttl maxN sid text parse
            (some img) reg =
            (_close_licencia_session sid
              { _cleanup_licencia_sessions now ttl maxN reg with
                sessions := refreshSession sid now sess.captcha_b64
                  (_cleanup_licencia_sessions now ttl maxN reg).sessions },
             .ok { ok := true, captcha_valido := true,
                   captcha_ingresado :=
                     some (String.mk ((text.data.filter Char.isDigit).take 6)),
                   sin_resultados := some parse.no_result,
                   dni := if sess.kind = "dni" then some sess.param_dni
                          else none }) := by
          simp only [enviar_captcha_sesion_licencia, hsome, hgate, hcv,
            not_true_eq_false, if_neg, ite_false]
        have hlookR : (refreshSession sid now sess.captcha_b64
            (_cleanup_licencia_sessions now ttl maxN reg).sessions).lookup
              sid = some { sess with created_at := now, captcha_b64 := sess.captcha_b64 } := by
          rw [lookup_refreshSession, hsome]
          rfl
        have hclose : _close_licencia_session sid
            { _cleanup_licencia_sessions now ttl maxN reg with
              sessions := refreshSession sid now sess.captcha_b64
                (_cleanup_licencia_sessions now ttl maxN reg).sessions } =
            { sessions := (refreshSession sid now sess.captcha_b64
                (_cleanup_licencia_sessions now ttl maxN reg).sessions).filter
                  (fun kv => kv.1 != sid),
              closedCtxs :=
                (_cleanup_licencia_sessions now ttl maxN reg).closedCtxs ++
                  [sess.ctx] } := by
          unfold _close_licencia_session
          rw [hlookR]
        refine ⟨?_, ?_, ?_⟩
        · rw [hrun]
          simp only [hclose]
          exact lookup_filter_self_none sid _
        · rw [hrun]
          simp only [hclose]
        · rw [hrun]
          simp only [_clean_6_digits]

/-- C5 witness: a concrete accepted answer against a live session — the
six digits are extracted from a noisy answer string, the session is
removed, its context (7) is released exactly once, and the parsed result
is returned. -/
theorem challenge_submit_protocol_witness :
    (enviar_captcha_sesion_licencia 5 120 50 "sidA" "1a2b3c4d5e6f"
        { captcha_valido := true, no_result := false } (some "newimg")
        ⟨[("sidA", ⟨0, "dni", "40712772", "old", 7⟩)], []⟩).1.sessions.lookup
      "sidA" = none ∧
    (enviar_captcha_sesion_licencia 5 120 50 "sidA" "1a2b3c4d5e6f"
        { captcha_valido := true, no_result := false } (some "newimg")
        ⟨[("sidA", ⟨0, "dni", "40712772", "old", 7⟩)], []⟩).1.closedCtxs =
      [7] ∧
    (enviar_captcha_sesion_licencia 5 120 50 "sidA" "1a2b3c4d5e6f"
        { captcha_valido := true, no_result := false } (some "newimg")
        ⟨[("sidA", ⟨0, "dni", "40712772", "old", 7⟩)], []⟩).2 =
      .ok { ok := true, captcha_valido := true,
            captcha_ingresado := some "123456",
            sin_resultados := some false, dni := some "40712772" } := by
  have h := ((challenge_submit_protocol 5 120 50 "sidA" "1a2b3c4d5e6f"
      { captcha_valido := true, no_result := false } "newimg"
      ⟨[("sidA", ⟨0, "dni", "40712772", "old", 7⟩)], []⟩
      ⟨0, "dni", "40712772", "old", 7⟩).2 (by decide)).2 (by decide)
      (by decide) |>.2 rfl
  refine ⟨h.1, h.2.1.trans (by decide), h.2.2.trans ?_⟩
  exact congrArg Except.ok (by decide)

/-- C9: the automation context opened by `consulta_licencia_por_nombre` is
NOT released on every exit path: when capturing the captcha image raises
(HTTPException 500), or when the task wrapper's timeout cancels the
coroutine, the context stays open — the code has no try/finally around the
lookup body, contradicting the stated resource guarantee. -/
theorem licencia_context_leak :
    (consulta_licencia_por_nombre_run
        { captchaImgPresent := false }).contextOpened = true ∧
    (consulta_licencia_por_nombre_run
        { captchaImgPresent := false }).contextClosed = false ∧
    (consulta_licencia_por_nombre_run
        { captchaImgPresent := false }).exit =
      .raised ⟨500, "Licencia: no se encontró imagen de captcha"⟩ ∧
    (consulta_licencia_por_nombre_run
        { cancelledByTimeout := true }).contextClosed = false ∧
    (consulta_licencia_por_nombre_run {}).contextClosed = true :=
  ⟨rfl, rfl, rfl, rfl, rfl⟩

/-- Histogram prefix sums are monotone. -/
theorem wPrefix_mono (hist : ℕ → ℕ) {k m : ℕ} (h : k ≤ m) :
    wPrefix hist k ≤ wPrefix hist m :=
  Finset.sum_le_sum_of_subset (Finset.range_subset.mpr h)

/-- One histogram bin extends the weight prefix sum. -/
theorem wPrefix_succ (hist : ℕ → ℕ) (k : ℕ) :
    wPrefix hist (k + 1) = wPrefix hist k + hist k :=
  Finset.sum_range_succ hist k

/-- One histogram bin extends the intensity prefix sum. -/
theorem sPrefix_succ (hist : ℕ → ℕ) (k : ℕ) :
    sPrefix hist (k + 1) = sPrefix hist k + k * hist k :=
  Finset.sum_range_succ (fun i => i * hist i) k

/-- The between-class variance is never negative. -/
theorem varBetween_nonneg (hist : ℕ → ℕ) (t : ℕ) :
    0 ≤ varBetween hist t := by
  simp only [varBetween]
  split
  · exact le_refl 0
  · positivity

/-- A threshold that is not considered extends the (maxVar, thr) clause of
the Otsu loop invariant unchanged. -/
theorem OtsuInv_extend_not_considered (hist : ℕ → ℕ) (total k : ℕ)
    (s : OtsuState) (hnc : ¬ considered hist total k)
    (hmax : ((∀ t < k, ¬ considered hist total t) ∧ s.maxVar = -1 ∧
        s.thr = 160) ∨
      (considered hist total s.thr ∧ s.thr < k ∧
       varBetween hist s.thr = s.maxVar ∧
       ∀ t < k, considered hist total t → varBetween hist t ≤ s.maxVar)) :
    ((∀ t < k + 1, ¬ considered hist total t) ∧ s.maxVar = -1 ∧
        s.thr = 160) ∨
      (considered hist total s.thr ∧ s.thr < k + 1 ∧
       varBetween hist s.thr = s.maxVar ∧
       ∀ t < k + 1, considered hist total t →
         varBetween hist t ≤ s.maxVar) := by
  rcases hmax with ⟨hnone, hmv, hthr⟩ | ⟨hc, hlt, hveq, hle⟩
  · refine Or.inl ⟨?_, hmv, hthr⟩
    intro t ht
    rcases Nat.lt_succ_iff_lt_or_eq.mp ht with h | rfl
    · exact hnone t h
    · exact hnc
  · refine Or.inr ⟨hc, by omega, hveq, ?_⟩
    intro t ht hct
    rcases Nat.lt_succ_iff_lt_or_eq.mp ht with h | rfl
    · exact hle t h hct
    · exact absurd hct hnc

/-- Closed-form one-step evaluation of the Otsu loop body on an explicit
state (definitional unfolding of the nested lets). -/
theorem otsuStep_eval (hist : ℕ → ℕ) (total sumTotal : ℕ)
    (wb0 sumb0 : ℕ) (mv : ℚ) (th : ℕ) (dn : Bool) (t : ℕ) :
    otsuStep hist total sumTotal ⟨wb0, sumb0, mv, th, dn⟩ t =
      if dn then ⟨wb0, sumb0, mv, th, dn⟩
      else if wb0 + hist t = 0 then ⟨wb0 + hist t, sumb0, mv, th, dn⟩
      else if total - (wb0 + hist t) = 0 then
        ⟨wb0 + hist t, sumb0, mv, th, true⟩
      else if mv < ((wb0 + hist t : ℕ) : ℚ) *
          ((total - (wb0 + hist t) : ℕ) : ℚ) *
          (((sumb0 + t * hist t : ℕ) : ℚ) / ((wb0 + hist t : ℕ) : ℚ) -
            (((sumTotal : ℕ) : ℚ) - ((sumb0 + t * hist t : ℕ) : ℚ)) /
              ((total - (wb0 + hist t) : ℕ) : ℚ)) ^ 2 then
        ⟨wb0 + hist t, sumb0 + t * hist t,
         ((wb0 + hist t : ℕ) : ℚ) * ((total - (wb0 + hist t) : ℕ) : ℚ) *
           (((sumb0 + t * hist t : ℕ) : ℚ) / ((wb0 + hist t : ℕ) : ℚ) -
             (((sumTotal : ℕ) : ℚ) - ((sumb0 + t * hist t : ℕ) : ℚ)) /
               ((total - (wb0 + hist t) : ℕ) : ℚ)) ^ 2, t, false⟩
      else ⟨wb0 + hist t, sumb0 + t * hist t, mv, th, dn⟩ := rfl

set_option maxRecDepth 4000 in
set_option maxHeartbeats 2000000 in
/-- The Otsu loop invariant holds after every prefix of the scan. -/
theorem otsu_loop_inv (hist : ℕ → ℕ) (total sumTotal : ℕ)
    (htotal : total = ∑ i ∈ Finset.range 256, hist i)
    (hsum : sumTotal = ∑ i ∈ Finset.range 256, i * hist i) :
    ∀ k, k ≤ 256 →
      OtsuInv hist total k
        ((List.range k).foldl (otsuStep hist total sumTotal) otsuInit) := by
  intro k
  induction k with
  | zero =>
    intro _
    refine ⟨rfl, fun _ => rfl, fun h => by simp [otsuInit] at h,
      Or.inl ⟨fun t ht => absurd ht (by omega), rfl, rfl⟩⟩
  | succ k ih =>
    intro hk256
    have hk : k ≤ 256 := Nat.le_of_succ_le hk256
    obtain ⟨hwb, hsumb, hdonetot, hmax⟩ := ih hk
    rw [List.range_succ, List.foldl_append, List.foldl_cons, List.foldl_nil]
    set s := (List.range k).foldl (otsuStep hist total sumTotal) otsuInit
      with hs
    clear_value s
    obtain ⟨swb, ssumb, smaxVar, sthr, sdone⟩ := s
    clear hs
    simp only at hwb hsumb hdonetot hmax
    have hwtot : wPrefix hist (k + 1) ≤ total := by
      have h1 : wPrefix hist (k + 1) ≤ wPrefix hist 256 :=
        wPrefix_mono hist (by omega)
      rw [htotal]
      exact h1
    by_cases hdone : sdone = true
    · subst hdone
      have hstep : otsuStep hist total sumTotal
          ⟨swb, ssumb, smaxVar, sthr, true⟩ k =
          ⟨swb, ssumb, smaxVar, sthr, true⟩ := by
        rw [otsuStep_eval, if_pos rfl]
      rw [hstep]
      have htot : wPrefix hist k = total := hdonetot rfl
      have htot1 : wPrefix hist (k + 1) = total := by
        have h2 : wPrefix hist k ≤ wPrefix hist (k + 1) :=
          wPrefix_mono hist (by omega)
        omega
      have hnc : ¬ considered hist total k := by
        rintro ⟨-, hlt⟩
        omega
      refine ⟨?_, ?_, ?_, ?_⟩
      · show swb = wPrefix hist (k + 1)
        rw [hwb, htot, htot1]
      · intro hf
        simp at hf
      · intro _
        exact htot1
      · exact OtsuInv_extend_not_considered hist total k
          ⟨swb, ssumb, smaxVar, sthr, true⟩ hnc hmax
    · rw [Bool.not_eq_true] at hdone
      subst hdone
      have hwb1 : swb + hist k = wPrefix hist (k + 1) := by
        rw [hwb, wPrefix_succ]
      have hsumb0 : ssumb = sPrefix hist k := hsumb rfl
      by_cases hwb0 : swb + hist k = 0
      · have hstep : otsuStep hist total sumTotal
            ⟨swb, ssumb, smaxVar, sthr, false⟩ k =
            ⟨swb + hist k, ssumb, smaxVar, sthr, false⟩ := by
          rw [otsuStep_eval, if_neg Bool.false_ne_true, if_pos hwb0]
        rw [hstep]
        have hhk : hist k = 0 := by omega
        have hnc : ¬ considered hist total k := by
          rintro ⟨hpos, -⟩
          rw [← hwb1] at hpos
          omega
        refine ⟨?_, ?_, ?_, ?_⟩
        · exact hwb1
        · intro _
          show ssumb = sPrefix hist (k + 1)
          rw [sPrefix_succ, hhk, Nat.mul_zero, Nat.add_zero]
          exact hsumb0
        · intro hf
          simp at hf
        · exact OtsuInv_extend_not_considered hist total k
            ⟨swb + hist k, ssumb, smaxVar, sthr, false⟩ hnc hmax
      · by_cases hwf0 : total - (swb + hist k) = 0
        · have hstep : otsuStep hist total sumTotal
              ⟨swb, ssumb, smaxVar, sthr, false⟩ k =
              ⟨swb + hist k, ssumb, smaxVar, sthr, true⟩ := by
            rw [otsuStep_eval, if_neg Bool.false_ne_true, if_neg hwb0,
              if_pos hwf0]
          rw [hstep]
          have htot1 : wPrefix hist (k + 1) = total := by omega
          have hnc : ¬ considered hist total k := by
            rintro ⟨-, hlt⟩
            omega
          refine ⟨?_, ?_, ?_, ?_⟩
          · exact hwb1
          · intro hf
            simp at hf
          · intro _
            exact htot1
          · exact OtsuInv_extend_not_considered hist total k
              ⟨swb + hist k, ssumb, smaxVar, sthr, true⟩ hnc hmax
        · have hcons : considered hist total k := by
            constructor
            · rw [← hwb1]; omega
            · rw [← hwb1]; omega
          have hwbeq : wBelow hist k = swb + hist k := hwb1.symm
          have hsbeq : sBelow hist k = ssumb + k * hist k := by
            have h1 : sBelow hist k = sPrefix hist (k + 1) := rfl
            rw [h1, sPrefix_succ, hsumb0]
          set varB : ℚ :=
            ((swb + hist k : ℕ) : ℚ) * ((total - (swb + hist k) : ℕ) : ℚ) *
              (((ssumb + k * hist k : ℕ) : ℚ) / ((swb + hist k : ℕ) : ℚ) -
                (((sumTotal : ℕ) : ℚ) - ((ssumb + k * hist k : ℕ) : ℚ)) /
                  ((total - (swb + hist k) : ℕ) : ℚ)) ^ 2 with hvB
          have hvarEq : varBetween hist k = varB := by
            rw [hvB]
            simp only [varBetween, hwbeq, hsbeq, ← htotal, ← hsum]
            rw [if_neg (by push_neg; exact ⟨hwb0, hwf0⟩)]
          have hvarB0 : 0 ≤ varB := hvarEq ▸ varBetween_nonneg hist k
          rcases lt_or_le smaxVar varB with hlt | hge
          · have hstep : otsuStep hist total sumTotal
                ⟨swb, ssumb, smaxVar, sthr, false⟩ k =
                ⟨swb + hist k, ssumb + k * hist k, varB, k, false⟩ := by
              rw [otsuStep_eval, if_neg Bool.false_ne_true, if_neg hwb0,
                if_neg hwf0, ← hvB, if_pos hlt]
            rw [hstep]
            refine ⟨?_, ?_, ?_, ?_⟩
            · exact hwb1
            · intro _
              show ssumb + k * hist k = sPrefix hist (k + 1)
              rw [sPrefix_succ, hsumb0]
            · intro hf
              simp at hf
            · refine Or.inr ⟨hcons, Nat.lt_succ_self k, hvarEq, ?_⟩
              intro t ht hct
              show varBetween hist t ≤ varB
              rcases Nat.lt_succ_iff_lt_or_eq.mp ht with h | rfl
              · rcases hmax with ⟨hnone, -, -⟩ | ⟨-, -, -, hle⟩
                · exact absurd hct (hnone t h)
                · exact le_of_lt (lt_of_le_of_lt (hle t h hct) hlt)
              · exact le_of_eq hvarEq
          · have hnlt : ¬ smaxVar < varB := not_lt.mpr hge
            have hstep : otsuStep hist total sumTotal
                ⟨swb, ssumb, smaxVar, sthr, false⟩ k =
                ⟨swb + hist k, ssumb + k * hist k, smaxVar, sthr, false⟩ := by
              rw [otsuStep_eval, if_neg Bool.false_ne_true, if_neg hwb0,
                if_neg hwf0, ← hvB, if_neg hnlt]
            rw [hstep]
            refine ⟨?_, ?_, ?_, ?_⟩
            · exact hwb1
            · intro _
              show ssumb + k * hist k = sPrefix hist (k + 1)
              rw [sPrefix_succ, hsumb0]
            · intro hf
              simp at hf
            · rcases hmax with ⟨-, hmv, -⟩ | ⟨hc, hlt2, hveq, hle⟩
              · exfalso
                rw [hmv] at hge
                have hneg : (-1 : ℚ) < varB :=
                  lt_of_lt_of_le (by norm_num) hvarB0
                exact absurd hge (not_le.mpr hneg)
              · refine Or.inr ⟨hc, ?_, hveq, ?_⟩
                · show sthr < k + 1
                  omega
                · intro t ht hct
                  show varBetween hist t ≤ smaxVar
                  rcases Nat.lt_succ_iff_lt_or_eq.mp ht with h | rfl
                  · exact hle t h hct
                  · exact hvarEq ▸ hge

/-- C7: for every 256-bin histogram the Otsu threshold lies in [90, 210]
— including degenerate all-one-value or empty histograms — and whenever a
threshold tstar uniquely maximizes the between-class variance
(weight below)·(weight above)·(mean below − mean above)² with a positive
maximum, the function returns exactly that maximizer clamped to
[90, 210]. -/
theorem otsu_threshold_range_and_argmax :
    ∀ hist : ℕ → ℕ,
      (90 ≤ _otsu_threshold hist ∧ _otsu_threshold hist ≤ 210) ∧
      (∀ tstar : ℕ, tstar < 256 → 0 < varBetween hist tstar →
        (∀ u < 256, u ≠ tstar →
          varBetween hist u < varBetween hist tstar) →
        _otsu_threshold hist = max 90 (min 210 tstar)) := by
  intro hist
  constructor
  · by_cases h : (∑ i ∈ Finset.range 256, hist i) = 0
    · simp only [_otsu_threshold, if_pos h]
      norm_num
    · simp only [_otsu_threshold, if_neg h]
      exact ⟨le_max_left _ _, max_le (by norm_num) (min_le_left _ _)⟩
  · intro tstar h256 hpos hmax
    have hcls : ¬ (wBelow hist tstar = 0 ∨
        (∑ i ∈ Finset.range 256, hist i) - wBelow hist tstar = 0) := by
      intro hc
      simp only [varBetween] at hpos
      rw [if_pos hc] at hpos
      exact lt_irrefl 0 hpos
    push_neg at hcls
    have hbw : wBelow hist tstar = wPrefix hist (tstar + 1) := rfl
    have hwb256 : wBelow hist tstar ≤ ∑ i ∈ Finset.range 256, hist i := by
      have h1 : wPrefix hist (tstar + 1) ≤ wPrefix hist 256 :=
      wPrefix_mono hist (by omega)
      rw [hbw]
      exact h1
    have htot0 : ¬ (∑ i ∈ Finset.range 256, hist i) = 0 := by
      have h1 := hcls.1
      omega
    obtain ⟨-, -, -, hmaxinv⟩ := otsu_loop_inv hist
      (∑ i ∈ Finset.range 256, hist i)
      (∑ i ∈ Finset.range 256, i * hist i) rfl rfl 256 (le_refl 256)
    have hconsidered :
        considered hist (∑ i ∈ Finset.range 256, hist i) tstar := by
      have h1 := hcls.1
      have h2 := hcls.2
      constructor
      · omega
      · omega
    rcases hmaxinv with ⟨hnone, -, -⟩ | ⟨hcthr, hlt256, hveq, hle⟩
    · exact absurd hconsidered (hnone tstar h256)
    · have h1 := hle tstar h256 hconsidered
      have hthr_eq : ((List.range 256).foldl
          (otsuStep hist (∑ i ∈ Finset.range 256, hist i)
            (∑ i ∈ Finset.range 256, i * hist i)) otsuInit).thr = tstar := by
        by_contra hne
        have h2 := hmax _ hlt256 hne
        rw [hveq] at h2
        exact absurd h1 (not_le.mpr h2)
      simp only [_otsu_threshold, if_neg htot0]
      rw [hthr_eq]

set_option maxRecDepth 10000 in
/-- Above bin 2 the witness histogram's lower class holds every pixel. -/
theorem wBelow_histWitness_total (u : ℕ) (hu : 2 ≤ u) :
    wBelow histWitness u = 4 := by
  have h : (∑ i ∈ Finset.range 3, histWitness i) =
      ∑ i ∈ Finset.range (u + 1), histWitness i := by
    apply Finset.sum_subset (Finset.range_subset.mpr (by omega))
    intro x _ hx
    rw [Finset.mem_range] at hx
    push_neg at hx
    have h0 : x ≠ 0 := by omega
    have h1 : x ≠ 1 := by omega
    have h2 : x ≠ 2 := by omega
    simp [histWitness, h0, h1, h2]
  unfold wBelow
  rw [← h]
  decide

set_option maxRecDepth 10000 in
/-- Whence its between-class variance vanishes above bin 1. -/
theorem varBetween_histWitness_high (u : ℕ) (hu : 2 ≤ u) :
    varBetween histWitness u = 0 := by
  have hw := wBelow_histWitness_total u hu
  simp only [varBetween]
  rw [if_pos (Or.inr (by rw [hw]; decide))]

set_option maxRecDepth 10000 in
/-- The witness histogram's variance at threshold 0. -/
theorem varBetween_histWitness_0 : varBetween histWitness 0 = 9 := by
  have h1 : wBelow histWitness 0 = 2 := by decide
  have h2 : sBelow histWitness 0 = 0 := by decide
  have h3 : (∑ i ∈ Finset.range 256, histWitness i) = 4 := by decide
  have h4 : (∑ i ∈ Finset.range 256, i * histWitness i) = 3 := by decide
  simp only [varBetween, h1, h2, h3, h4]
  norm_num

set_option maxRecDepth 10000 in
/-- The witness histogram's variance at threshold 1. -/
theorem varBetween_histWitness_1 : varBetween histWitness 1 = 25 / 3 := by
  have h1 : wBelow histWitness 1 = 3 := by decide
  have h2 : sBelow histWitness 1 = 1 := by decide
  have h3 : (∑ i ∈ Finset.range 256, histWitness i) = 4 := by decide
  have h4 : (∑ i ∈ Finset.range 256, i * histWitness i) = 3 := by decide
  simp only [varBetween, h1, h2, h3, h4]
  norm_num

/-- C7 witness: on the concrete histogram {0 ↦ 2, 1 ↦ 1, 2 ↦ 1} the unique
variance maximizer is threshold 0 (variance 9 against 25/3 and 0), and the
function indeed returns its clamp max 90 (min 210 0) = 90. -/
theorem otsu_threshold_witness :
    _otsu_threshold histWitness = 90 ∧ 0 < varBetween histWitness 0 := by
  have hpos : 0 < varBetween histWitness 0 := by
    rw [varBetween_histWitness_0]
    norm_num
  have hmax : ∀ u < 256, u ≠ 0 →
      varBetween histWitness u < varBetween histWitness 0 := by
    intro u hu hne
    rw [varBetween_histWitness_0]
    rcases Nat.lt_or_ge u 2 with h2 | h2
    · have h01 : u = 0 ∨ u = 1 := by omega
      rcases h01 with rfl | rfl
      · exact absurd rfl hne
      · rw [varBetween_histWitness_1]
        norm_num
    · rw [varBetween_histWitness_high u h2]
      norm_num
  have h := (otsu_threshold_range_and_argmax histWitness).2 0 (by norm_num)
    hpos hmax
  rw [h]
  exact ⟨rfl, hpos⟩

end PCar
